import Mathlib

/-!
Verification of the behaviour of `src/slpt.py` (simple link processing tool).

The script is a batch pipeline: `process_files` prepares the output
directory, globs the input files and runs `process_one_file` on each one;
`process_one_file` streams the lines of one input file through
`process_line` and writes the surviving lines to `output_path / name`;
`main` parses two boolean flags and wraps `process_files` in a
catch-all handler.

The embedding below models
  * Python strings by `String`, with hand-rolled recursions `pySplit`
    (for `str.split('/')`), `pyJoin` (for `'/'.join`) and `splitLines`
    (for text-file line iteration, line terminators kept);
  * the filesystem by `FS`: a set of directories plus a partial map from
    paths to file contents; `Path.exists`, `Path.is_file`, `Path.is_dir`,
    `Path.mkdir` and `open('w')` become `FS` operations;
  * Python exceptions by the `PyExc` inductive (one constructor per
    exception class the script can see) threaded through `Except`; an
    escaping exception carries the filesystem state at raise time;
  * the glob step by an explicit list of `(file name, file contents)`
    pairs handed to `process_files`: the claims under study are about
    what happens to discovered files, not about glob itself.

The line-processing function is passed as a parameter `t` through
`process_one_file`/`process_files` (the script hard-wires it to
`process_line`; `runPipeline`/`main` below instantiate it so) in order to
state the exception-handling properties of the loops for an arbitrary
line transformer.  `mkdir` cannot fail in this model (there are no
permissions), so the `CantCreateDestFolder` branch of the script is
never taken here.  Logging is not modelled.
-/

namespace Slpt

/-- The exception classes visible in `src/slpt.py` (lines 11-32), plus
`assertionError` for Python's built-in `AssertionError` and `otherError`
for any other `Exception`.  Payloads abbreviate the Python messages to
the offending path / message text. -/
inductive PyExc where
  | skipLineError (msg : String)
  | assertionError (msg : String)
  | wrongDestinationPath (path : String)
  | cantCreateDestFolder (path : String)
  | cantCreateDestFile (path : String)
  | outputFileAlreadyExists (path : String)
  | otherError (msg : String)
deriving DecidableEq, Repr

/-- Membership in the script's exception hierarchy rooted at
`AbstractProcessFilesError` (lines 11-32): `SkipLineError`,
`WrongDestinationPath`, `CantCreateDestFolder`, `CantCreateDestFile` and
`OutputFileAlreadyExists` derive from it; `AssertionError` and other
exceptions do not. -/
def PyExc.isAbstractProcessFilesError : PyExc → Bool
  | .skipLineError _ => true
  | .wrongDestinationPath _ => true
  | .cantCreateDestFolder _ => true
  | .cantCreateDestFile _ => true
  | .outputFileAlreadyExists _ => true
  | .assertionError _ => false
  | .otherError _ => false

/-- The filesystem: a list of existing directories and a map from paths
to the contents of regular files.  Paths are plain strings; the script
only ever forms `output_path / fn.name`, modelled as
`output_path ++ "/" ++ name`. -/
@[ext]
structure FS where
  dirs : List String
  files : String → Option String

/-- `Path.is_file`. -/
def FS.isFile (fs : FS) (p : String) : Bool := (fs.files p).isSome

/-- `Path.is_dir`. -/
def FS.isDir (fs : FS) (p : String) : Bool := fs.dirs.contains p

/-- `Path.exists`: the path is a regular file or a directory. -/
def FS.existsPath (fs : FS) (p : String) : Bool := fs.isFile p || fs.isDir p

/-- Contents of the regular file at `p`, if any. -/
def FS.read (fs : FS) (p : String) : Option String := fs.files p

/-- Create or replace the regular file at `p` with contents `c`
(`open(p, 'w')` followed by writing `c`). -/
def FS.write (fs : FS) (p : String) (c : String) : FS :=
  { fs with files := fun q => if q = p then some c else fs.files q }

/-- Append `c` to the regular file at `p` (one `stream_out.write(c)` on
an open handle). -/
def FS.append (fs : FS) (p : String) (c : String) : FS :=
  fs.write p (((fs.files p).getD "") ++ c)

/-- `Path.mkdir`: record `p` as a directory. -/
def FS.mkdir (fs : FS) (p : String) : FS := { fs with dirs := p :: fs.dirs }

/-- Split a character list at every `/`, keeping empty pieces, exactly as
Python's `str.split('/')` does on the underlying text. -/
def splitOnSlashAux : List Char → List (List Char)
  | [] => [[]]
  | c :: rest =>
    if c = '/' then [] :: splitOnSlashAux rest
    else
      match splitOnSlashAux rest with
      | [] => [[c]]
      | w :: ws => (c :: w) :: ws

/-- Python's `line.split('/')` (line 95). -/
def pySplit (s : String) : List String :=
  (splitOnSlashAux s.data).map fun l => String.mk l

/-- Python's `sep.join(words)` (line 99). -/
def pyJoin (sep : String) : List String → String
  | [] => ""
  | [w] => w
  | w :: ws => w ++ sep ++ pyJoin sep ws

/-- Split text into lines the way iterating over an open Python text
file does: every line keeps its trailing `'\n'`, a final fragment
without a terminator is still a line, and empty text yields no lines. -/
def splitLinesAux : List Char → List (List Char)
  | [] => []
  | c :: rest =>
    if c = '\n' then [c] :: splitLinesAux rest
    else
      match splitLinesAux rest with
      | [] => [[c]]
      | w :: ws => (c :: w) :: ws

/-- `for line in stream_in` (line 79): the lines of the file contents,
line terminators kept. -/
def splitLines (s : String) : List String :=
  (splitLinesAux s.data).map fun l => String.mk l

/-- `process_line` (lines 90-99): keep fields 4 and 5 of the
`/`-splitting of the line; assert the slice is non-empty and starts with
`"channel"`; return the two fields rejoined with `/` plus a newline.
The Python return type is `str or None`; this function only ever
returns a string or raises `AssertionError`. -/
def process_line (line : String) : Except PyExc (Option String) :=
  let words := ((pySplit line).drop 4).take 2
  match words with
  | [] => .error (.assertionError "Wrong line format")
  | w :: ws =>
    if w = "channel" then .ok (some (pyJoin "/" (w :: ws) ++ "\n"))
    else .error (.assertionError "Channel links only supported")

/-- The body of the per-line loop of `process_one_file` (lines 80-87):
call the transformer `t` on the line; a normal result is kept (`some`)
or dropped (`none`); `SkipLineError` and `AssertionError` are caught and
logged at debug level, any other exception is caught and logged with a
stack trace; in every caught case the line contributes no output. -/
def lineStep (t : String → Except PyExc (Option String)) (line : String) :
    Except PyExc (Option String) :=
  match t line with
  | .ok (some r) => .ok (some r)
  | .ok none => .ok none
  | .error (.skipLineError _) => .ok none
  | .error (.assertionError _) => .ok none
  | .error _ => .ok none

/-- The line loop of `process_one_file` (lines 79-87) run against the
open destination file `dest`: each line's surviving output is appended
to `dest`; a line exception escaping `lineStep` would abort the loop
with the filesystem as it stands. -/
def writeLinesLoop (t : String → Except PyExc (Option String)) (fs : FS)
    (dest : String) : List String → Except (PyExc × FS) FS
  | [] => .ok fs
  | line :: rest =>
    match lineStep t line with
    | .error e => .error (e, fs)
    | .ok none => writeLinesLoop t fs dest rest
    | .ok (some r) => writeLinesLoop t (fs.append dest r) dest rest

/-- `process_one_file` (lines 68-87): compute the destination path; if
it exists, refuse when overwrite is off (`OutputFileAlreadyExists`) or
when it is not a regular file (`CantCreateDestFile`); otherwise open the
destination for writing, which truncates it, and stream the lines. -/
def process_one_file (t : String → Except PyExc (Option String)) (fs : FS)
    (name content : String) (output_path : String) (overwrite : Bool) :
    Except (PyExc × FS) FS :=
  let result_file_name := output_path ++ "/" ++ name
  let guard : Option PyExc :=
    if fs.existsPath result_file_name then
      if !overwrite then some (.outputFileAlreadyExists result_file_name)
      else if !(fs.isFile result_file_name) then
        some (.cantCreateDestFile result_file_name)
      else none
    else none
  match guard with
  | some e => .error (e, fs)
  | none =>
    writeLinesLoop t (fs.write result_file_name "") result_file_name
      (splitLines content)

/-- The body of the per-file loop of `process_files` (lines 59-65):
process one file; `AbstractProcessFilesError` is caught and logged as an
error, any other exception is caught and logged with a stack trace; in
both cases the run continues from the filesystem state at raise time. -/
def stepFile (t : String → Except PyExc (Option String))
    (output_path : String) (overwrite : Bool) (fs : FS)
    (x : String × String) : FS :=
  match process_one_file t fs x.1 x.2 output_path overwrite with
  | .ok f => f
  | .error (e, f) => if e.isAbstractProcessFilesError then f else f

/-- The per-file loop of `process_files` (lines 59-65). -/
def perFileLoop (t : String → Except PyExc (Option String))
    (output_path : String) (overwrite : Bool) (fs : FS) :
    List (String × String) → FS
  | [] => fs
  | x :: rest => perFileLoop t output_path overwrite
      (stepFile t output_path overwrite fs x) rest

/-- `process_files` (lines 43-65): prepare the output directory (an
existing directory is fine, an existing non-directory raises
`WrongDestinationPath`, a missing path is created), then run the
per-file loop over the discovered input files. -/
def process_files (t : String → Except PyExc (Option String)) (fs : FS)
    (inputs : List (String × String)) (output_path : String)
    (overwrite : Bool) : Except (PyExc × FS) FS :=
  if fs.existsPath output_path && fs.isDir output_path then
    .ok (perFileLoop t output_path overwrite fs inputs)
  else if fs.existsPath output_path then
    .error (.wrongDestinationPath output_path, fs)
  else
    .ok (perFileLoop t output_path overwrite (fs.mkdir output_path) inputs)

/-- One whole run of the pipeline with the script's `process_line` as
the transformer, wrapped in `main`'s catch-all handler (lines 109-112):
an escaping exception is logged and the run returns normally with the
filesystem as it stood at raise time. -/
def runPipeline (fs : FS) (inputs : List (String × String))
    (output_path : String) (overwrite : Bool) : FS :=
  match process_files process_line fs inputs output_path overwrite with
  | .ok f => f
  | .error (_, f) => f

/-- `main` (lines 102-112): overwrite mode is on unless `--no_overwrite`
is among the arguments; the output directory is the fixed `"result"`;
`--debug` only changes logging, which is not modelled.  `inputs` stands
for the files discovered by `glob('*.txt')` in the working directory. -/
def main (argv : List String) (fs : FS)
    (inputs : List (String × String)) : FS :=
  let overwrite := !(argv.contains "--no_overwrite")
  runPipeline fs inputs "result" overwrite

/-- The value Python's per-line `try` block extracts from one
transformer call: the returned value on success, nothing when the call
raised (every exception is caught). -/
def pyCatchLine (r : Except PyExc (Option String)) : Option String :=
  match r with
  | .ok v => v
  | .error _ => none

/-- The text one line contributes to the destination file. -/
def lineOut (t : String → Except PyExc (Option String))
    (line : String) : String :=
  (pyCatchLine (t line)).getD ""

/-- The text a list of lines contributes to the destination file. -/
def linesOutput (t : String → Except PyExc (Option String)) :
    List String → String
  | [] => ""
  | line :: rest => lineOut t line ++ linesOutput t rest

/-- The full contents `process_one_file` writes for an input file with
contents `content`. -/
def fileOutput (t : String → Except PyExc (Option String))
    (content : String) : String :=
  linesOutput t (splitLines content)

/-- The empty filesystem: no directories, no files. -/
def emptyFS : FS := ⟨[], fun _ => none⟩

/-- A filesystem where the default output path `result` is occupied by a
regular file, so the output directory cannot be prepared. -/
def fileAtResultFS : FS :=
  ⟨[], fun p => if p = "result" then some "stray" else none⟩

/-- A filesystem with the output directory in place and a pre-existing
destination file `result/a.txt`. -/
def existingDestFS : FS :=
  ⟨["result"], fun p => if p = "result/a.txt" then some "old contents" else none⟩

/-! ### Helper lemmas about the filesystem model -/

theorem FS.write_files_self (fs : FS) (p c : String) :
    (fs.write p c).files p = some c := by
  simp [FS.write]

theorem FS.write_files_other (fs : FS) (p c q : String) (h : q ≠ p) :
    (fs.write p c).files q = fs.files q := by
  simp [FS.write, h]

theorem FS.write_dirs (fs : FS) (p c : String) :
    (fs.write p c).dirs = fs.dirs := rfl

theorem FS.write_write (fs : FS) (p a b : String) :
    (fs.write p a).write p b = fs.write p b := by
  refine FS.ext rfl (funext fun q => ?_)
  by_cases h : q = p <;> simp [FS.write, h]

theorem FS.mkdir_dirs (fs : FS) (p : String) :
    (fs.mkdir p).dirs = p :: fs.dirs := rfl

theorem str_append_left_cancel (s a b : String) (h : s ++ a = s ++ b) :
    a = b := by
  have hd := congrArg String.data h
  rw [String.data_append, String.data_append] at hd
  exact String.ext (List.append_cancel_left hd)

/-! ### Helper lemmas about the line loop -/

/-- Every exception of the transformer is caught by the per-line
`try`/`except` blocks: one line step is always a normal result, namely
what `pyCatchLine` extracts from the transformer's answer. -/
theorem lineStep_eq (t : String → Except PyExc (Option String))
    (line : String) : lineStep t line = .ok (pyCatchLine (t line)) := by
  cases h : t line with
  | ok v => cases v <;> simp [lineStep, pyCatchLine, h]
  | error e => cases e <;> simp [lineStep, pyCatchLine, h]

/-- The line loop never raises: it always delivers a final filesystem. -/
theorem writeLinesLoop_ok (t : String → Except PyExc (Option String))
    (lines : List String) : ∀ (fs : FS) (dest : String),
    ∃ f, writeLinesLoop t fs dest lines = .ok f := by
  induction lines with
  | nil => exact fun fs dest => ⟨fs, rfl⟩
  | cons line rest ih =>
    intro fs dest
    simp only [writeLinesLoop, lineStep_eq]
    cases pyCatchLine (t line) with
    | none => exact ih fs dest
    | some r => exact ih (fs.append dest r) dest

/-- Running the line loop against a freshly (re)written destination file
appends exactly `linesOutput` to it. -/
theorem writeLinesLoop_write (t : String → Except PyExc (Option String))
    (lines : List String) : ∀ (fs : FS) (dest s : String),
    writeLinesLoop t (fs.write dest s) dest lines =
      .ok (fs.write dest (s ++ linesOutput t lines)) := by
  induction lines with
  | nil =>
    intro fs dest s
    simp only [writeLinesLoop, linesOutput, String.append_empty]
  | cons line rest ih =>
    intro fs dest s
    simp only [writeLinesLoop, lineStep_eq, linesOutput, lineOut]
    cases h : pyCatchLine (t line) with
    | none =>
      rw [ih fs dest s]
      simp [String.empty_append]
    | some r =>
      show writeLinesLoop t ((fs.write dest s).append dest r) dest rest = _
      rw [FS.append, FS.write_files_self, Option.getD_some, FS.write_write,
        ih fs dest (s ++ r)]
      simp [String.append_assoc]

/-! ### Characterization of one file's processing -/

/-- `process_one_file` in closed form: a guard failure leaves the
filesystem untouched, a passing guard rewrites the destination with the
transformed contents. -/
theorem process_one_file_eq (t : String → Except PyExc (Option String))
    (fs : FS) (name content out : String) (ow : Bool) :
    process_one_file t fs name content out ow =
      (if fs.existsPath (out ++ "/" ++ name) && !ow then
        .error (.outputFileAlreadyExists (out ++ "/" ++ name), fs)
      else if fs.existsPath (out ++ "/" ++ name) &&
          !(fs.isFile (out ++ "/" ++ name)) then
        .error (.cantCreateDestFile (out ++ "/" ++ name), fs)
      else
        .ok (fs.write (out ++ "/" ++ name) (fileOutput t content))) := by
  unfold process_one_file
  cases he : fs.existsPath (out ++ "/" ++ name) <;>
    cases ow <;>
    cases hf : fs.isFile (out ++ "/" ++ name) <;>
    simp [he, hf, writeLinesLoop_write, fileOutput, String.empty_append]

/-- The caught per-file step in closed form (the `try`/`except` body of
the loop in `process_files`). -/
theorem stepFile_eq (t : String → Except PyExc (Option String))
    (out : String) (ow : Bool) (fs : FS) (x : String × String) :
    stepFile t out ow fs x =
      (if fs.existsPath (out ++ "/" ++ x.1) && !ow then fs
      else if fs.existsPath (out ++ "/" ++ x.1) &&
          !(fs.isFile (out ++ "/" ++ x.1)) then fs
      else fs.write (out ++ "/" ++ x.1) (fileOutput t x.2)) := by
  unfold stepFile
  rw [process_one_file_eq]
  by_cases h1 : fs.existsPath (out ++ "/" ++ x.1) && !ow <;>
    by_cases h2 : fs.existsPath (out ++ "/" ++ x.1) &&
      !(fs.isFile (out ++ "/" ++ x.1)) <;>
    simp [h1, h2]

theorem stepFile_dirs (t : String → Except PyExc (Option String))
    (out : String) (ow : Bool) (fs : FS) (x : String × String) :
    (stepFile t out ow fs x).dirs = fs.dirs := by
  rw [stepFile_eq]
  split
  · rfl
  · split <;> rfl

theorem stepFile_files_other (t : String → Except PyExc (Option String))
    (out : String) (ow : Bool) (fs : FS) (x : String × String) (p : String)
    (h : p ≠ out ++ "/" ++ x.1) :
    (stepFile t out ow fs x).files p = fs.files p := by
  rw [stepFile_eq]
  split
  · rfl
  · split
    · rfl
    · exact FS.write_files_other fs _ _ _ h

theorem perFileLoop_dirs (t : String → Except PyExc (Option String))
    (out : String) (ow : Bool) (xs : List (String × String)) :
    ∀ fs : FS, (perFileLoop t out ow fs xs).dirs = fs.dirs := by
  induction xs with
  | nil => exact fun fs => rfl
  | cons x rest ih =>
    intro fs
    rw [perFileLoop, ih, stepFile_dirs]

theorem perFileLoop_files_other (t : String → Except PyExc (Option String))
    (out : String) (ow : Bool) (xs : List (String × String)) :
    ∀ (fs : FS) (p : String), (∀ x ∈ xs, p ≠ out ++ "/" ++ x.1) →
    (perFileLoop t out ow fs xs).files p = fs.files p := by
  induction xs with
  | nil => exact fun fs p _ => rfl
  | cons x rest ih =>
    intro fs p h
    rw [perFileLoop, ih _ p fun y hy => h y (List.mem_cons_of_mem x hy),
      stepFile_files_other]
    exact h x (List.mem_cons_self x rest)

/-- Re-running the per-file loop with overwrite on, over input files with
pairwise distinct destination paths, rewrites every destination with the
contents it already has: the filesystem does not change. -/
theorem perFileLoop_idem (t : String → Except PyExc (Option String))
    (out : String) (xs : List (String × String)) :
    ∀ fs : FS, (xs.map fun x => out ++ "/" ++ x.1).Nodup →
    perFileLoop t out true (perFileLoop t out true fs xs) xs =
      perFileLoop t out true fs xs := by
  induction xs with
  | nil => exact fun fs _ => rfl
  | cons x rest ih =>
    intro fs hnd
    rw [List.map_cons, List.nodup_cons] at hnd
    obtain ⟨hx, hrest⟩ := hnd
    have hne : ∀ y ∈ rest, out ++ "/" ++ x.1 ≠ out ++ "/" ++ y.1 := by
      intro y hy h
      apply hx
      rw [h]
      exact List.mem_map_of_mem _ hy
    simp only [perFileLoop]
    have hfiles : (perFileLoop t out true (stepFile t out true fs x)
          rest).files (out ++ "/" ++ x.1) =
        (stepFile t out true fs x).files (out ++ "/" ++ x.1) :=
      perFileLoop_files_other t out true rest _ _ hne
    have hdirs : (perFileLoop t out true (stepFile t out true fs x)
          rest).dirs = (stepFile t out true fs x).dirs :=
      perFileLoop_dirs t out true rest _
    have hf1c : stepFile t out true fs x =
        if fs.existsPath (out ++ "/" ++ x.1) &&
            !(fs.isFile (out ++ "/" ++ x.1)) then fs
        else fs.write (out ++ "/" ++ x.1) (fileOutput t x.2) := by
      rw [stepFile_eq]
      simp
    by_cases hc : (fs.existsPath (out ++ "/" ++ x.1) &&
        !(fs.isFile (out ++ "/" ++ x.1))) = true
    · rw [if_pos hc] at hf1c
      have hstep : stepFile t out true
          (perFileLoop t out true (stepFile t out true fs x) rest) x =
          perFileLoop t out true (stepFile t out true fs x) rest := by
        rw [stepFile_eq]
        simp only [Bool.not_true, Bool.and_false, Bool.false_eq_true,
          if_false]
        rw [if_pos]
        show (_ && _) = true
        rw [FS.existsPath, FS.isFile, FS.isDir, hfiles, hdirs, hf1c]
        exact hc
      rw [hstep, hf1c]
      exact ih fs hrest
    · rw [if_neg hc] at hf1c
      have hsome : (perFileLoop t out true (stepFile t out true fs x)
            rest).files (out ++ "/" ++ x.1) =
          some (fileOutput t x.2) := by
        rw [hfiles, hf1c]
        exact FS.write_files_self ..
      have hstep : stepFile t out true
          (perFileLoop t out true (stepFile t out true fs x) rest) x =
          (perFileLoop t out true (stepFile t out true fs x) rest).write
            (out ++ "/" ++ x.1) (fileOutput t x.2) := by
        rw [stepFile_eq]
        simp [FS.isFile, hsome]
      have hwF : (perFileLoop t out true (stepFile t out true fs x)
            rest).write (out ++ "/" ++ x.1) (fileOutput t x.2) =
          perFileLoop t out true (stepFile t out true fs x) rest := by
        refine FS.ext rfl (funext fun q => ?_)
        by_cases hq : q = out ++ "/" ++ x.1
        · rw [hq, FS.write_files_self, hsome]
        · exact FS.write_files_other _ _ _ _ hq
      rw [hstep, hwF]
      exact ih _ hrest

/-- `process_line` when the field slice is empty: the first assertion
fires. -/
theorem process_line_take_nil (line : String)
    (h : ((pySplit line).drop 4).take 2 = []) :
    process_line line = .error (.assertionError "Wrong line format") := by
  unfold process_line
  rw [h]

/-- `process_line` when the field slice is non-empty: the result hinges
on the `channel` check. -/
theorem process_line_take_cons (line w : String) (ws : List String)
    (h : ((pySplit line).drop 4).take 2 = w :: ws) :
    process_line line =
      if w = "channel" then .ok (some (pyJoin "/" (w :: ws) ++ "\n"))
      else .error (.assertionError "Channel links only supported") := by
  unfold process_line
  rw [h]

/-! ### The claims -/

/-- Claim C1, counterexample: on an input file `a.txt` whose two lines
are `"/x/y/z/w/channel/42\n"` and `"/too/short\n"`, the pipeline does
NOT produce `result/a.txt` with contents `"channel/42\n"`.  The leading
`/` makes the split's field 0 empty, so field 4 is `"w"`, not
`"channel"`, and the first line is skipped too. -/
theorem spec_c1_counterexample :
    ¬ (runPipeline emptyFS [("a.txt", "/x/y/z/w/channel/42\n/too/short\n")]
        "result" true).read "result/a.txt" = some "channel/42\n" := by
  decide

/-- Claim C1, amended: on that input file the pipeline produces
`result/a.txt` with contents exactly `""` — both lines are dropped, the
first because its field at index 4 is `"w"`, the second because it has
fewer than 5 fields. -/
theorem spec_c1_amended :
    (runPipeline emptyFS [("a.txt", "/x/y/z/w/channel/42\n/too/short\n")]
        "result" true).read "result/a.txt" = some "" := by
  decide

/-- Claim C2: for every line whose `/`-split fields are
`[a, b, c, d, "channel", X, ...]`, `process_line` returns exactly
`"channel/" ++ X ++ "\n"`. -/
theorem spec_c2 (line a b c d X : String) (rest : List String)
    (h : pySplit line = a :: b :: c :: d :: "channel" :: X :: rest) :
    process_line line = .ok (some ("channel/" ++ X ++ "\n")) := by
  have hw : ((pySplit line).drop 4).take 2 = ["channel", X] := by
    rw [h]
    rfl
  rw [process_line_take_cons line "channel" [X] hw, if_pos rfl]
  have hj : ("channel" : String) ++ "/" = "channel/" := by decide
  show Except.ok (some ("channel" ++ "/" ++ X ++ "\n")) = _
  rw [hj]

/-- Claim C2 witness: instantiated at the concrete line
`"a/b/c/d/channel/X/r"`. -/
theorem spec_c2_witness :
    pySplit "a/b/c/d/channel/X/r" =
        "a" :: "b" :: "c" :: "d" :: "channel" :: "X" :: ["r"] ∧
      process_line "a/b/c/d/channel/X/r" =
        .ok (some ("channel/" ++ "X" ++ "\n")) :=
  ⟨by decide,
    spec_c2 "a/b/c/d/channel/X/r" "a" "b" "c" "d" "X" ["r"] (by decide)⟩

/-- Claim C3: `process_line` signals skip (raises, so the line produces
no output) exactly when the line has fewer than 5 `/`-split fields or
the field at index 4 is not the literal `"channel"`. -/
theorem spec_c3 (line : String) :
    (∃ e, process_line line = .error e) ↔
      ((pySplit line).length < 5 ∨
        ¬ (pySplit line)[4]? = some "channel") := by
  cases hd : (pySplit line).drop 4 with
  | nil =>
    have hnil : ((pySplit line).drop 4).take 2 = [] := by
      rw [hd]
      rfl
    have hpl := process_line_take_nil line hnil
    have hlen : (pySplit line).length ≤ 4 := List.drop_eq_nil_iff.mp hd
    constructor
    · intro _
      exact Or.inl (by omega)
    · intro _
      exact ⟨.assertionError "Wrong line format", hpl⟩
  | cons w ws =>
    have htake : ((pySplit line).drop 4).take 2 = w :: ws.take 1 := by
      rw [hd]
      rfl
    have hpl := process_line_take_cons line w (ws.take 1) htake
    have hget : (pySplit line)[4]? = some w := by
      rw [← List.head?_drop, hd]
      rfl
    have hlen : ¬ (pySplit line).length < 5 := by
      have hlg := congrArg List.length hd
      rw [List.length_drop, List.length_cons] at hlg
      omega
    by_cases hc : w = "channel"
    · rw [if_pos hc] at hpl
      constructor
      · rintro ⟨e, he⟩
        rw [hpl] at he
        exact absurd he (by simp)
      · rintro (h5 | hch)
        · exact absurd h5 hlen
        · rw [hget, hc] at hch
          exact absurd rfl hch
    · rw [if_neg hc] at hpl
      constructor
      · intro _
        refine Or.inr ?_
        rw [hget]
        intro hsome
        exact hc (Option.some.inj hsome)
      · intro _
        exact ⟨.assertionError "Channel links only supported", hpl⟩

/-- Claim C4: when the output path exists and is not a directory,
`process_files` raises `WrongDestinationPath` for every input list, with
the filesystem unchanged — no input file is processed and no output file
is written. -/
theorem spec_c4 (t : String → Except PyExc (Option String)) (fs : FS)
    (inputs : List (String × String)) (out : String) (ow : Bool)
    (h1 : fs.existsPath out = true) (h2 : fs.isDir out = false) :
    process_files t fs inputs out ow =
      .error (.wrongDestinationPath out, fs) := by
  unfold process_files
  rw [h1, h2]
  simp

/-- Claim C4 witness: a stray regular file at `result` aborts the run. -/
theorem spec_c4_witness :
    fileAtResultFS.existsPath "result" = true ∧
      fileAtResultFS.isDir "result" = false ∧
      process_files process_line fileAtResultFS [("a.txt", "x")] "result"
          true = .error (.wrongDestinationPath "result", fileAtResultFS) :=
  ⟨by decide, by decide,
    spec_c4 process_line fileAtResultFS [("a.txt", "x")] "result" true
      (by decide) (by decide)⟩

/-- Claim C5: with overwrite off and the destination already present,
`process_one_file` raises `OutputFileAlreadyExists` with the filesystem
unchanged (so the existing destination keeps its contents), and the
per-file loop still processes all remaining input files. -/
theorem spec_c5 (t : String → Except PyExc (Option String)) (fs : FS)
    (name content out : String) (rest : List (String × String))
    (h : fs.existsPath (out ++ "/" ++ name) = true) :
    process_one_file t fs name content out false =
        .error (.outputFileAlreadyExists (out ++ "/" ++ name), fs) ∧
      perFileLoop t out false fs ((name, content) :: rest) =
        perFileLoop t out false fs rest := by
  have hp : process_one_file t fs name content out false =
      .error (.outputFileAlreadyExists (out ++ "/" ++ name), fs) := by
    rw [process_one_file_eq, h]
    simp
  refine ⟨hp, ?_⟩
  simp only [perFileLoop]
  have hs : stepFile t out false fs (name, content) = fs := by
    simp [stepFile, hp, PyExc.isAbstractProcessFilesError]
  rw [hs]

/-- Claim C5 witness: `result/a.txt` already exists, overwrite is off;
the error is raised with the filesystem unchanged and `b.txt` is still
processed. -/
theorem spec_c5_witness :
    existingDestFS.existsPath ("result" ++ "/" ++ "a.txt") = true ∧
      (process_one_file process_line existingDestFS "a.txt" "x/y\n"
            "result" false =
          .error (.outputFileAlreadyExists ("result" ++ "/" ++ "a.txt"),
            existingDestFS) ∧
        perFileLoop process_line "result" false existingDestFS
            [("a.txt", "x/y\n"), ("b.txt", "q\n")] =
          perFileLoop process_line "result" false existingDestFS
            [("b.txt", "q\n")]) :=
  ⟨by decide,
    spec_c5 process_line existingDestFS "a.txt" "x/y\n" "result"
      [("b.txt", "q\n")] (by decide)⟩

/-- Claim C6: any exception of the line transformer is caught by the
per-line handlers: the line contributes no output (`lineStep` yields
`none`), the loop goes on with the remaining lines, and the line loop
never lets an exception escape. -/
theorem spec_c6 (t : String → Except PyExc (Option String)) (fs : FS)
    (dest line : String) (rest : List String) (e : PyExc)
    (h : t line = .error e) :
    lineStep t line = .ok none ∧
      writeLinesLoop t fs dest (line :: rest) =
        writeLinesLoop t fs dest rest ∧
      ∀ lines : List String, ∃ f,
        writeLinesLoop t fs dest lines = .ok f := by
  have h1 : lineStep t line = .ok none := by
    rw [lineStep_eq, h]
    rfl
  refine ⟨h1, ?_, fun lines => writeLinesLoop_ok t lines fs dest⟩
  simp only [writeLinesLoop, h1]

/-- Claim C6 witness: `process_line` raises `AssertionError` on a line
with a single field; the loop drops it and carries on. -/
theorem spec_c6_witness :
    process_line "no-slashes-here\n" =
        .error (.assertionError "Wrong line format") ∧
      (lineStep process_line "no-slashes-here\n" = .ok none ∧
        writeLinesLoop process_line emptyFS "result/a.txt"
            ["no-slashes-here\n", "a/b/c/d/channel/9\n"] =
          writeLinesLoop process_line emptyFS "result/a.txt"
            ["a/b/c/d/channel/9\n"] ∧
        ∀ lines : List String, ∃ f,
          writeLinesLoop process_line emptyFS "result/a.txt" lines =
            .ok f) :=
  ⟨rfl,
    spec_c6 process_line emptyFS "result/a.txt" "no-slashes-here\n"
      ["a/b/c/d/channel/9\n"] (.assertionError "Wrong line format") rfl⟩

/-- Claim C7: any exception escaping `process_one_file` for one file is
caught by the per-file loop, which continues with all the remaining
discovered files from the state at raise time. -/
theorem spec_c7 (t : String → Except PyExc (Option String)) (out : String)
    (ow : Bool) (fs : FS) (name content : String)
    (rest : List (String × String)) (e : PyExc) (f' : FS)
    (h : process_one_file t fs name content out ow = .error (e, f')) :
    perFileLoop t out ow fs ((name, content) :: rest) =
      perFileLoop t out ow f' rest := by
  simp only [perFileLoop]
  have hs : stepFile t out ow fs (name, content) = f' := by
    simp [stepFile, h]
  rw [hs]

/-- Claim C7 witness: the first file fails with
`OutputFileAlreadyExists`; the loop still processes `c.txt`. -/
theorem spec_c7_witness :
    process_one_file process_line existingDestFS "a.txt" "line\n" "result"
        false =
        .error (.outputFileAlreadyExists "result/a.txt", existingDestFS) ∧
      perFileLoop process_line "result" false existingDestFS
          [("a.txt", "line\n"), ("c.txt", "z\n")] =
        perFileLoop process_line "result" false existingDestFS
          [("c.txt", "z\n")] :=
  ⟨rfl,
    spec_c7 process_line "result" false existingDestFS "a.txt" "line\n"
      [("c.txt", "z\n")] (.outputFileAlreadyExists "result/a.txt")
      existingDestFS rfl⟩

/-- Claim C8: with overwrite enabled and input file names pairwise
distinct (a directory holds each name once), running the pipeline twice
on unchanged inputs gives the same filesystem as running it once: every
output file is byte-identical across the two runs. -/
theorem spec_c8 (fs : FS) (inputs : List (String × String)) (out : String)
    (h : (inputs.map Prod.fst).Nodup) :
    runPipeline (runPipeline fs inputs out true) inputs out true =
      runPipeline fs inputs out true := by
  have hd : (inputs.map fun x => out ++ "/" ++ x.1).Nodup := by
    have hmap : (inputs.map Prod.fst).map (fun n => out ++ "/" ++ n) =
        inputs.map fun x => out ++ "/" ++ x.1 := by
      rw [List.map_map]
      rfl
    rw [← hmap]
    exact h.map fun a b hab => str_append_left_cancel (out ++ "/") a b hab
  by_cases h1 : (fs.existsPath out && fs.isDir out) = true
  · have hF1 : runPipeline fs inputs out true =
        perFileLoop process_line out true fs inputs := by
      unfold runPipeline process_files
      rw [if_pos h1]
    have hgood : ((perFileLoop process_line out true fs inputs).existsPath
          out &&
        (perFileLoop process_line out true fs inputs).isDir out) = true := by
      have hdir : fs.isDir out = true := ((Bool.and_eq_true _ _).mp h1).2
      have : (perFileLoop process_line out true fs inputs).isDir out =
          true := by
        rw [FS.isDir, perFileLoop_dirs]
        exact hdir
      rw [FS.existsPath, this]
      simp
    rw [hF1]
    unfold runPipeline process_files
    rw [if_pos hgood]
    exact perFileLoop_idem process_line out inputs fs hd
  · by_cases h2 : fs.existsPath out = true
    · have hF1 : runPipeline fs inputs out true = fs := by
        unfold runPipeline process_files
        rw [if_neg h1, if_pos h2]
      rw [hF1]
      exact hF1
    · have h2f : fs.existsPath out = false := by
        cases hb : fs.existsPath out
        · rfl
        · exact absurd hb h2
      have h1f : (fs.existsPath out && fs.isDir out) = false := by
        rw [h2f]
        rfl
      have hF1 : runPipeline fs inputs out true =
          perFileLoop process_line out true (fs.mkdir out) inputs := by
        unfold runPipeline process_files
        rw [h1f, h2f]
        simp
      have hgood : ((perFileLoop process_line out true (fs.mkdir out)
            inputs).existsPath out &&
          (perFileLoop process_line out true (fs.mkdir out)
            inputs).isDir out) = true := by
        have : (perFileLoop process_line out true (fs.mkdir out)
            inputs).isDir out = true := by
          rw [FS.isDir, perFileLoop_dirs, FS.mkdir_dirs]
          simp
        rw [FS.existsPath, this]
        simp
      rw [hF1]
      unfold runPipeline process_files
      rw [if_pos hgood]
      exact perFileLoop_idem process_line out inputs (fs.mkdir out) hd

/-- Claim C8 witness: two distinct input files, second run equals the
first. -/
theorem spec_c8_witness :
    (([("a.txt", "/x/y/z/w/channel/42\n"),
        ("b.txt", "a/b/c/d/channel/7/t\n")].map Prod.fst).Nodup) ∧
      runPipeline
          (runPipeline emptyFS
            [("a.txt", "/x/y/z/w/channel/42\n"),
              ("b.txt", "a/b/c/d/channel/7/t\n")] "result" true)
          [("a.txt", "/x/y/z/w/channel/42\n"),
            ("b.txt", "a/b/c/d/channel/7/t\n")] "result" true =
        runPipeline emptyFS
          [("a.txt", "/x/y/z/w/channel/42\n"),
            ("b.txt", "a/b/c/d/channel/7/t\n")] "result" true :=
  ⟨by decide,
    spec_c8 emptyFS
      [("a.txt", "/x/y/z/w/channel/42\n"),
        ("b.txt", "a/b/c/d/channel/7/t\n")] "result" (by decide)⟩

/-- Claim C9: whatever exception `process_files` raises, `main` catches
it and returns normally (with the filesystem as it stood at raise
time); no exception propagates out of `main`. -/
theorem spec_c9 (argv : List String) (fs : FS)
    (inputs : List (String × String)) (e : PyExc) (f' : FS)
    (h : process_files process_line fs inputs "result"
        (!(argv.contains "--no_overwrite")) = .error (e, f')) :
    main argv fs inputs = f' := by
  simp only [main, runPipeline]
  rw [h]

/-- Claim C9 witness: the fatal `WrongDestinationPath` is caught by
`main`, which returns the untouched filesystem. -/
theorem spec_c9_witness :
    process_files process_line fileAtResultFS [("a.txt", "x\n")] "result"
        (!((["--debug"] : List String).contains "--no_overwrite")) =
        .error (.wrongDestinationPath "result", fileAtResultFS) ∧
      main ["--debug"] fileAtResultFS [("a.txt", "x\n")] = fileAtResultFS :=
  ⟨rfl,
    spec_c9 ["--debug"] fileAtResultFS [("a.txt", "x\n")]
      (.wrongDestinationPath "result") fileAtResultFS rfl⟩

/-- Claim C10: `process_line` either returns a string ending in a
newline or raises; it never returns the `None` sentinel, so the
`result is not None` branch of the file loop never drops a result of
this transformer. -/
theorem spec_c10 (line : String) :
    process_line line ≠ .ok none ∧
      ((∃ s, process_line line = .ok (some s) ∧ ∃ u, s = u ++ "\n") ∨
        ∃ e, process_line line = .error e) := by
  cases hw : ((pySplit line).drop 4).take 2 with
  | nil =>
    rw [process_line_take_nil line hw]
    exact ⟨by simp, Or.inr ⟨.assertionError "Wrong line format", rfl⟩⟩
  | cons w ws =>
    rw [process_line_take_cons line w ws hw]
    by_cases hc : w = "channel"
    · rw [if_pos hc]
      exact ⟨by simp,
        Or.inl ⟨pyJoin "/" (w :: ws) ++ "\n", rfl,
          pyJoin "/" (w :: ws), rfl⟩⟩
    · rw [if_neg hc]
      exact ⟨by simp,
        Or.inr ⟨.assertionError "Channel links only supported", rfl⟩⟩

end Slpt
